import Mathlib

/-!
Shallow embedding of the orchestration core of the multi-agent
customer-service system (files `adk_a2a_system.py` and
`database_utils.py`), together with theorems settling the frozen
claims about it.

Modelling conventions:
* Python/JSON values are modelled by the inductive `JValue`.
  JSON numbers are modelled as integers (no claim under test involves
  floating-point numbers; number literals with a fraction or exponent
  are out of the model and make the parser fail).
* Python dictionaries are association lists in insertion order;
  key update replaces the first occurrence in place, key insertion
  appends at the end, exactly as CPython preserves insertion order.
* Python truthiness (`if not payload`, `if not customer_id`, ...) is
  modelled by explicit `truthy` functions.
* The two remote specialists are opaque text oracles: a call to
  `A2ASimpleClient.create_task` is modelled by reading the next string
  from a list of raw responses supplied as a parameter.
-/

namespace A2ASys

/-- JSON / Python value universe used by the orchestrator. -/
inductive JValue where
  | null : JValue
  | bool : Bool → JValue
  | num : Int → JValue
  | str : String → JValue
  | arr : List JValue → JValue
  | obj : List (String × JValue) → JValue
deriving Repr

/-- Python truthiness of a JSON value: `None`, `False`, `0`, `""`,
`[]` and `{}` are falsy, everything else truthy. -/
def JValue.truthy : JValue → Bool
  | .null => false
  | .bool b => b
  | .num n => n != 0
  | .str s => s != ""
  | .arr xs => !xs.isEmpty
  | .obj kvs => !kvs.isEmpty

/-- Truthiness of `payload.get(key)`: an absent key yields `None`. -/
def truthyOpt : Option JValue → Bool
  | none => false
  | some v => v.truthy

/-- Is the value a Python dict? (`isinstance(payload, dict)`). -/
def JValue.isObj : JValue → Bool
  | .obj _ => true
  | _ => false

/-- Lookup `payload.get(key)` — first binding of the key in the dict. -/
def JValue.getKey : JValue → String → Option JValue
  | .obj kvs, k => (kvs.find? (fun kv => kv.1 == k)).map (·.2)
  | _, _ => none

/-- Test `key in payload`. -/
def JValue.hasKey (v : JValue) (k : String) : Bool :=
  (v.getKey k).isSome

/-- Update `payload[key] = val` on an association list: replace the first
binding in place, else append (CPython dict insertion order). -/
def setPairs (kvs : List (String × JValue)) (k : String) (v : JValue) :
    List (String × JValue) :=
  match kvs with
  | [] => [(k, v)]
  | (k', v') :: rest =>
    if k' == k then (k', v) :: rest else (k', v') :: setPairs rest k v

/-- Update `payload[key] = val` on a `JValue` (identity on non-dicts). -/
def JValue.setKey : JValue → String → JValue → JValue
  | .obj kvs, k, v => .obj (setPairs kvs k v)
  | w, _, _ => w

/-- Is `needle` a contiguous infix of the second list? -/
def listInfix (needle : List Char) : List Char → Bool
  | [] => needle.isEmpty
  | c :: rest => needle.isPrefixOf (c :: rest) || listInfix needle rest

/-- Substring test: Python's `needle in hay`. -/
def strContains (hay needle : String) : Bool :=
  listInfix needle.data hay.data

/-- ASCII lower-casing of one character (all queries are ASCII, so
this matches Python's `str.lower`). -/
def charLower (c : Char) : Char :=
  if 'A' ≤ c && c ≤ 'Z' then Char.ofNat (c.toNat + 32) else c

/-- Python `query.lower()`. -/
def strLower (s : String) : String :=
  ⟨s.data.map charLower⟩

/-- Function `RouterOrchestrator._classify_query`: ordered keyword rules over
the lower-cased query, first match wins, default `"generic"`. -/
def classifyQuery (query : String) : String :=
  let q := strLower query
  if strContains q "high-priority" || strContains q "premium" then
    "premium_report"
  else if strContains q "active customers" && strContains q "open tickets" then
    "active_open"
  else if strContains q "update my email" && strContains q "ticket history" then
    "update_email_history"
  else if (strContains q "cancel" || strContains q "refund"
      || strContains q "charged twice" || strContains q "billing")
      && strContains q "customer id" then
    "billing_escalation"
  else if strContains q "charged twice" || strContains q "refund" then
    "billing_escalation"
  else if strContains q "upgrade" then
    "upgrade"
  else if strContains q "help with my account" || strContains q "check my details" then
    "account_help"
  else if strContains q "customer information" then
    "simple_lookup"
  else if strContains q "ticket history" && strContains q "update" then
    "multi_intent"
  else
    "generic"

/-- The classification rules of `_classify_query` as an explicit
ordered list of (predicate, scenario) pairs, in source order. -/
def classifyRules : List ((String → Bool) × String) :=
  [ (fun q => strContains q "high-priority" || strContains q "premium",
      "premium_report"),
    (fun q => strContains q "active customers" && strContains q "open tickets",
      "active_open"),
    (fun q => strContains q "update my email" && strContains q "ticket history",
      "update_email_history"),
    (fun q => (strContains q "cancel" || strContains q "refund"
        || strContains q "charged twice" || strContains q "billing")
        && strContains q "customer id",
      "billing_escalation"),
    (fun q => strContains q "charged twice" || strContains q "refund",
      "billing_escalation"),
    (fun q => strContains q "upgrade", "upgrade"),
    (fun q => strContains q "help with my account" || strContains q "check my details",
      "account_help"),
    (fun q => strContains q "customer information", "simple_lookup"),
    (fun q => strContains q "ticket history" && strContains q "update",
      "multi_intent") ]

/-- First-match-wins evaluation of an ordered rule list. -/
def firstMatch : List ((String → Bool) × String) → String → String
  | [], _ => "generic"
  | (p, lab) :: rest, q => if p q then lab else firstMatch rest q

/-! ### Customer-id extraction

`_extract_customer_id` runs `re.search` with the case-insensitive
pattern `(?:customer\s*(?:id)?|id)\s*(?:is|:)?\s*(\d+)` and falls back
to `_infer_customer_id_from_keywords`.  The fixed pattern is embedded
directly: `re.search` scans start positions left to right; at a given
position the alternation tries `customer\s*(?:id)?` before `id`; the
greedy `\s*`, `(?:id)?` and `(?:is|:)?` pieces commit without loss
because no later piece can consume the characters they match. -/

/-- Python `\s` on ASCII text. -/
def isPyWs (c : Char) : Bool :=
  c == ' ' || c == '\t' || c == '\n' || c == '\x0d' || c == '\x0b' || c == '\x0c'

/-- Python `\d` on ASCII text. -/
def isPyDigit (c : Char) : Bool :=
  '0' ≤ c && c ≤ '9'

/-- Greedy `\s*`. -/
def dropWs (cs : List Char) : List Char :=
  cs.dropWhile isPyWs

/-- Case-insensitive literal match (`lit` given in lowercase);
returns the remaining input on success. -/
def stripLitCI : List Char → List Char → Option (List Char)
  | [], cs => some cs
  | _ :: _, [] => none
  | l :: ls, c :: cs => if charLower c == l then stripLitCI ls cs else none

/-- Python `int()` of a digit string. -/
def digitsToNat (ds : List Char) : Nat :=
  ds.foldl (fun a c => a * 10 + (c.toNat - 48)) 0

/-- The common tail `\s*(?:is|:)?\s*(\d+)` of the id pattern, returning
the captured integer. -/
def matchTail (cs : List Char) : Option Nat :=
  let cs1 := dropWs cs
  let cs2 :=
    match stripLitCI ['i', 's'] cs1 with
    | some r => r
    | none =>
      match stripLitCI [':'] cs1 with
      | some r => r
      | none => cs1
  let cs3 := dropWs cs2
  let ds := cs3.takeWhile isPyDigit
  if ds.isEmpty then none else some (digitsToNat ds)

/-- Try the id pattern anchored at the current position:
alternative `customer\s*(?:id)?` first, then `id`. -/
def matchIdAt (cs : List Char) : Option Nat :=
  match stripLitCI ['c', 'u', 's', 't', 'o', 'm', 'e', 'r'] cs with
  | some rest =>
    let r1 := dropWs rest
    let r2 :=
      match stripLitCI ['i', 'd'] r1 with
      | some r => r
      | none => r1
    matchTail r2
  | none =>
    match stripLitCI ['i', 'd'] cs with
    | some rest => matchTail rest
    | none => none

/-- Python `re.search`: leftmost matching start position wins. -/
def searchId : List Char → Option Nat
  | [] => none
  | c :: cs =>
    match matchIdAt (c :: cs) with
    | some n => some n
    | none => searchId cs

/-- Function `RouterOrchestrator._infer_customer_id_from_keywords`: keyword
heuristic over the lower-cased query. -/
def inferCustomerIdFromKeywords (queryLower : String) : Option Nat :=
  if strContains queryLower "charged twice" || strContains queryLower "double charge"
      || strContains queryLower "refund" then
    some 4
  else if strContains queryLower "upgrade my account"
      || strContains queryLower "upgrade assistance" then
    some 3
  else
    none

/-- Function `RouterOrchestrator._extract_customer_id`. -/
def extractCustomerId (query : String) : Option Nat :=
  match searchId query.data with
  | some n => some n
  | none => inferCustomerIdFromKeywords (strLower query)

/-- Truthiness of the extracted id (`if not customer_id` treats both
`None` and `0` as missing). -/
def truthyId : Option Nat → Bool
  | none => false
  | some n => n != 0

/-! ### JSON parsing (`json.loads`) and serialization (`json.dumps`)

Numbers are modelled as integers; a numeric literal with a fraction or
exponent makes the whole parse fail (no claim involves floats).  The
parser otherwise follows RFC 8259 as `json.loads` does: strict strings
(control characters rejected, standard escapes), no leading zeros, the
whole input must be consumed. -/

/-- JSON whitespace (space, tab, newline, carriage return). -/
def isJWs (c : Char) : Bool :=
  c == ' ' || c == '\t' || c == '\n' || c == '\x0d'

def skipJWs (cs : List Char) : List Char :=
  cs.dropWhile isJWs

/-- Hexadecimal digit value. -/
def hexVal (c : Char) : Option Nat :=
  if '0' ≤ c && c ≤ '9' then some (c.toNat - 48)
  else if 'a' ≤ c && c ≤ 'f' then some (c.toNat - 87)
  else if 'A' ≤ c && c ≤ 'F' then some (c.toNat - 55)
  else none

/-- Body of a JSON string after the opening quote: accumulates
characters until the closing quote, handling the standard escapes. -/
def parseJStr (acc : List Char) : List Char → Option (String × List Char)
  | [] => none
  | '"' :: rest => some (⟨acc.reverse⟩, rest)
  | '\\' :: esc =>
    match esc with
    | '"' :: r => parseJStr ('"' :: acc) r
    | '\\' :: r => parseJStr ('\\' :: acc) r
    | '/' :: r => parseJStr ('/' :: acc) r
    | 'b' :: r => parseJStr ('\x08' :: acc) r
    | 'f' :: r => parseJStr ('\x0c' :: acc) r
    | 'n' :: r => parseJStr ('\n' :: acc) r
    | 'r' :: r => parseJStr ('\x0d' :: acc) r
    | 't' :: r => parseJStr ('\t' :: acc) r
    | 'u' :: h1 :: h2 :: h3 :: h4 :: r =>
      match hexVal h1, hexVal h2, hexVal h3, hexVal h4 with
      | some a, some b, some c, some d =>
        parseJStr (Char.ofNat (((a * 16 + b) * 16 + c) * 16 + d) :: acc) r
      | _, _, _, _ => none
    | _ => none
  | c :: rest => if c.toNat < 32 then none else parseJStr (c :: acc) rest

/-- JSON number literal: optional minus, integer part with the JSON
leading-zero rule; a following `.`/`e`/`E` is outside the model and
fails. -/
def parseJNum (cs : List Char) : Option (Int × List Char) :=
  let (neg, cs1) : Bool × List Char :=
    match cs with
    | '-' :: r => (true, r)
    | _ => (false, cs)
  match cs1 with
  | c :: _ =>
    if isPyDigit c then
      let ds := cs1.takeWhile isPyDigit
      let rest := cs1.dropWhile isPyDigit
      if ds.length > 1 && c == '0' then none
      else
        match rest with
        | '.' :: _ => none
        | 'e' :: _ => none
        | 'E' :: _ => none
        | _ =>
          let n : Int := Int.ofNat (digitsToNat ds)
          some (if neg then -n else n, rest)
    else none
  | [] => none

mutual

/-- Fuel-indexed JSON value parser (fuel strictly decreases; the
top-level entry point supplies enough fuel for any input). -/
def parseJValue : Nat → List Char → Option (JValue × List Char)
  | 0, _ => none
  | fuel + 1, cs =>
    match skipJWs cs with
    | '{' :: r =>
      match skipJWs r with
      | '}' :: r2 => some (.obj [], r2)
      | r' => parseJMembers fuel r' []
    | '[' :: r =>
      match skipJWs r with
      | ']' :: r2 => some (.arr [], r2)
      | r' => parseJElems fuel r' []
    | '"' :: r => (parseJStr [] r).map (fun p => (.str p.1, p.2))
    | 't' :: 'r' :: 'u' :: 'e' :: r => some (.bool true, r)
    | 'f' :: 'a' :: 'l' :: 's' :: 'e' :: r => some (.bool false, r)
    | 'n' :: 'u' :: 'l' :: 'l' :: r => some (.null, r)
    | cs' => (parseJNum cs').map (fun p => (.num p.1, p.2))

/-- Members of a JSON object (duplicate keys: last value wins at the
first position, as in a Python dict). -/
def parseJMembers : Nat → List Char → List (String × JValue) →
    Option (JValue × List Char)
  | 0, _, _ => none
  | fuel + 1, cs, acc =>
    match skipJWs cs with
    | '"' :: r =>
      match parseJStr [] r with
      | none => none
      | some (k, r2) =>
        match skipJWs r2 with
        | ':' :: r3 =>
          match parseJValue fuel r3 with
          | none => none
          | some (v, r4) =>
            let acc' := setPairs acc k v
            match skipJWs r4 with
            | ',' :: r5 => parseJMembers fuel r5 acc'
            | '}' :: r5 => some (.obj acc', r5)
            | _ => none
        | _ => none
    | _ => none

/-- Elements of a JSON array. -/
def parseJElems : Nat → List Char → List JValue → Option (JValue × List Char)
  | 0, _, _ => none
  | fuel + 1, cs, acc =>
    match parseJValue fuel cs with
    | none => none
    | some (v, r) =>
      match skipJWs r with
      | ',' :: r2 => parseJElems fuel r2 (v :: acc)
      | ']' :: r2 => some (.arr (v :: acc).reverse, r2)
      | _ => none

end

/-- Python `json.loads`: parse and require the whole input consumed. -/
def jsonLoads (s : String) : Option JValue :=
  match parseJValue (s.data.length + 1) s.data with
  | some (v, rest) => if (skipJWs rest).isEmpty then some v else none
  | none => none

/-- Join strings with a separator (`sep.join(parts)`). -/
def joinSep (sep : String) : List String → String
  | [] => ""
  | [x] => x
  | x :: y :: xs => x ++ sep ++ joinSep sep (y :: xs)

/-- Hex digit characters for `\uXXXX` escapes (lowercase, as Python). -/
def hexDigitChar (n : Nat) : Char :=
  if n < 10 then Char.ofNat (48 + n) else Char.ofNat (87 + n)

/-- The `\uXXXX` escape for one code point below 0x10000. -/
def uEscape (n : Nat) : List Char :=
  ['\\', 'u', hexDigitChar (n / 4096 % 16), hexDigitChar (n / 256 % 16),
   hexDigitChar (n / 16 % 16), hexDigitChar (n % 16)]

/-- Python `json.dumps` escaping of one character (`ensure_ascii=True`;
code points above 0xFFFF, which need surrogate pairs, do not occur in
this system's ASCII data). -/
def jEscapeChar (c : Char) : List Char :=
  if c == '"' then ['\\', '"']
  else if c == '\\' then ['\\', '\\']
  else if c == '\n' then ['\\', 'n']
  else if c == '\t' then ['\\', 't']
  else if c == '\x0d' then ['\\', 'r']
  else if c == '\x08' then ['\\', 'b']
  else if c == '\x0c' then ['\\', 'f']
  else if c.toNat < 32 || c.toNat > 126 then uEscape c.toNat
  else [c]

/-- Python `json.dumps` of a string literal. -/
def jEscapeStr (s : String) : String :=
  "\"" ++ ⟨s.data.flatMap jEscapeChar⟩ ++ "\""

mutual

/-- Python `json.dumps(v)` with the default separators `", "` and `": "`. -/
def dumps : JValue → String
  | .null => "null"
  | .bool true => "true"
  | .bool false => "false"
  | .num n => toString n
  | .str s => jEscapeStr s
  | .arr xs => "[" ++ joinSep ", " (dumpsArr xs) ++ "]"
  | .obj kvs => "\x7b" ++ joinSep ", " (dumpsObj kvs) ++ "\x7d"

def dumpsArr : List JValue → List String
  | [] => []
  | v :: vs => dumps v :: dumpsArr vs

def dumpsObj : List (String × JValue) → List String
  | [] => []
  | (k, v) :: kvs => (jEscapeStr k ++ ": " ++ dumps v) :: dumpsObj kvs

end

/-- A run of `n` spaces. -/
def spaces (n : Nat) : String :=
  ⟨List.replicate n ' '⟩

mutual

/-- Python `json.dumps(v, indent=2)`: `ind` is the current indentation of the
enclosing container. -/
def dumpsInd (ind : Nat) : JValue → String
  | .null => "null"
  | .bool true => "true"
  | .bool false => "false"
  | .num n => toString n
  | .str s => jEscapeStr s
  | .arr [] => "[]"
  | .arr (v :: vs) =>
    "[\n" ++ joinSep ",\n" (dumpsIndArr (ind + 2) (v :: vs)) ++ "\n"
      ++ spaces ind ++ "]"
  | .obj [] => "\x7b\x7d"
  | .obj (kv :: kvs) =>
    "\x7b\n" ++ joinSep ",\n" (dumpsIndObj (ind + 2) (kv :: kvs)) ++ "\n"
      ++ spaces ind ++ "\x7d"

def dumpsIndArr (ind : Nat) : List JValue → List String
  | [] => []
  | v :: vs => (spaces ind ++ dumpsInd ind v) :: dumpsIndArr ind vs

def dumpsIndObj (ind : Nat) : List (String × JValue) → List String
  | [] => []
  | (k, v) :: kvs =>
    (spaces ind ++ jEscapeStr k ++ ": " ++ dumpsInd ind v) :: dumpsIndObj ind kvs

end

mutual

/-- Python `repr` of a JSON-derived value (dicts and lists print with
single-quoted strings; quote/escape corner cases do not occur in this
system's data). -/
def pyRepr : JValue → String
  | .null => "None"
  | .bool true => "True"
  | .bool false => "False"
  | .num n => toString n
  | .str s => "\x27" ++ s ++ "\x27"
  | .arr xs => "[" ++ joinSep ", " (pyReprArr xs) ++ "]"
  | .obj kvs => "\x7b" ++ joinSep ", " (pyReprObj kvs) ++ "\x7d"

def pyReprArr : List JValue → List String
  | [] => []
  | v :: vs => pyRepr v :: pyReprArr vs

def pyReprObj : List (String × JValue) → List String
  | [] => []
  | (k, v) :: kvs => ("\x27" ++ k ++ "\x27: " ++ pyRepr v) :: pyReprObj kvs

end

/-- Python `str(v)` / f-string interpolation of a JSON-derived value. -/
def pyFStr : JValue → String
  | .str s => s
  | .null => "None"
  | .bool true => "True"
  | .bool false => "False"
  | .num n => toString n
  | v => pyRepr v

/-- Python `text.strip()` on ASCII text. -/
def pyStrip (s : String) : String :=
  ⟨((s.data.dropWhile isPyWs).reverse.dropWhile isPyWs).reverse⟩

/-- Remainder after the first occurrence of `sep`, if `sep` occurs
(`text.split(sep)` has length ≥ 2 exactly when this is `some`). -/
def dropToAfterSep (sep : List Char) : List Char → Option (List Char)
  | [] => none
  | c :: rest =>
    if sep.isPrefixOf (c :: rest) then some (List.drop sep.length (c :: rest))
    else dropToAfterSep sep rest

/-- Prefix up to the next occurrence of `sep` (the whole list if `sep`
does not occur): together with `dropToAfterSep` this yields
`text.split(sep)[1]`. -/
def takeToSep (sep : List Char) : List Char → List Char
  | [] => []
  | c :: rest =>
    if sep.isPrefixOf (c :: rest) then [] else c :: takeToSep sep rest

/-- Index of the first occurrence of `c` (`text.find(c)`), `none` for
`-1`. -/
def findIdxCh (c : Char) (cs : List Char) : Option Nat :=
  cs.findIdx? (fun x => x == c)

/-- Index of the last occurrence of `c` (`text.rfind(c)`). -/
def rfindIdxCh (c : Char) (cs : List Char) : Option Nat :=
  match findIdxCh c cs.reverse with
  | some i => some (cs.length - 1 - i)
  | none => none

/-- Function `_parse_json` (module level in `adk_a2a_system.py`): strip, peel a
leading code fence, drop a leading `json` tag, parse; on failure
salvage the substring between the first `\x7b` and the last `\x7d`;
on total failure return the empty dict. -/
def parseJson (content : String) : JValue :=
  if content == "" then .obj []
  else
    let text := pyStrip content
    let text :=
      if ("```".data).isPrefixOf text.data then
        match dropToAfterSep "```".data text.data with
        | some r => pyStrip ⟨takeToSep "```".data r⟩
        | none => text
      else text
    let text :=
      if ("json".data).isPrefixOf text.data then pyStrip ⟨text.data.drop 4⟩
      else text
    match jsonLoads text with
    | some v => v
    | none =>
      match findIdxCh '\x7b' text.data, rfindIdxCh '\x7d' text.data with
      | some s, some e =>
        if s < e then
          match jsonLoads ⟨(text.data.drop s).take (e + 1 - s)⟩ with
          | some v => v
          | none => .obj []
        else .obj []
      | _, _ => .obj []

/-! ### Payload validators, fallback coercion, dialog loop -/

/-- The `\x7b"_invalid": reason\x7d` rejection marker. -/
def invalidObj (msg : String) : JValue :=
  .obj [("_invalid", .str msg)]

/-- Function `RouterOrchestrator._validate_customer_payload`. -/
def validateCustomerPayload (payload : JValue) : JValue :=
  if !payload.isObj || !payload.truthy then
    invalidObj "Customer Data agent returned non-JSON output."
  else
    let missing :=
      (if payload.hasKey "context_payload" then [] else ["context_payload"])
        ++ (if payload.hasKey "handoff_summary" then [] else ["handoff_summary"])
    if !missing.isEmpty then
      invalidObj ("Missing keys from Customer Data payload: " ++ joinSep ", " missing)
    else if !payload.hasKey "recommended_next_agent" then
      payload.setKey "recommended_next_agent" (.str "router")
    else payload

/-- Function `RouterOrchestrator._validate_support_payload`. -/
def validateSupportPayload (payload : JValue) (strict : Bool) : JValue :=
  if !payload.isObj || !payload.truthy then
    if strict then invalidObj "Response was not valid JSON." else .obj []
  else if !payload.hasKey "requires_context" && strict then
    invalidObj "Missing requires_context flag."
  else
    let p :=
      if payload.hasKey "requires_context" then payload
      else payload.setKey "requires_context" (.bool true)
    if truthyOpt (p.getKey "requires_context") then
      if !truthyOpt (p.getKey "context_type") then
        if strict then invalidObj "requires_context=true but context_type missing."
        else p.setKey "context_type" (.str "profile")
      else p
    else
      let ctKill :=
        match p.getKey "context_type" with
        | none => false
        | some .null => false
        | some (.str s) => s != "null"
        | some _ => true
      let p2 := if ctKill then p.setKey "context_type" .null else p
      if !p2.hasKey "customer_response" then
        if strict then invalidObj "requires_context=false but customer_response missing."
        else p2.setKey "customer_response" (.str (dumps p2))
      else p2

/-- Function `RouterOrchestrator._coerce_support_text`: keyword scan over the
raw text, synthesizing a schema-conformant support payload. -/
def coerceSupportText (text : String) : JValue :=
  let normalized := pyStrip text
  let lower := strLower normalized
  let needsContext :=
    strContains lower "need" || strContains lower "provide your"
      || strContains lower "customer id" || strContains lower "billing"
      || strContains lower "more information" || strContains lower "context"
      || strContains lower "cannot proceed"
  if needsContext then
    let contextType :=
      if strContains lower "billing" || strContains lower "charge"
          || strContains lower "refund" then "billing"
      else if strContains lower "ticket" || strContains lower "history" then "history"
      else "profile"
    .obj [("requires_context", .bool true), ("context_type", .str contextType),
      ("notes_for_router", .str
        ("Support agent asked for additional context but responded outside JSON. Original text: "
          ++ (if normalized == "" then "N/A" else normalized)))]
  else
    .obj [("requires_context", .bool false), ("context_type", .null),
      ("customer_response", .str
        (if normalized == "" then "Support response unavailable." else normalized)),
      ("notes_for_router", .str
        "Support agent returned plain text; router wrapped it in schema.")]

/-- Function `RouterOrchestrator._format_support_response`. -/
def formatSupportResponse (supportResult : JValue) : String :=
  if !supportResult.truthy then "Support agent returned no data."
  else if truthyOpt (supportResult.getKey "requires_context") then
    let notes := supportResult.getKey "notes_for_router"
    if truthyOpt notes then pyFStr (notes.getD .null)
    else
      "Support requires more "
        ++ pyFStr ((supportResult.getKey "context_type").getD
            (.str "additional information"))
        ++ " before responding."
  else
    let response :=
      match supportResult.getKey "customer_response" with
      | some v => pyFStr v
      | none => dumpsInd 0 supportResult
    let finalMessage := "Final customer message:\n" ++ response
    let notes := supportResult.getKey "notes_for_router"
    if truthyOpt notes then
      finalMessage ++ "\n\n[Router note: " ++ pyFStr (notes.getD .null) ++ "]"
    else finalMessage

/-- Function `RouterOrchestrator._support_dialog`.  The remote support agent is
an oracle: `responses` are the successive results of `_call_support`,
`contexts` the successive results of `_request_additional_context`.
`none` means the loop is still running when the supplied oracle is
exhausted. -/
def supportDialog (responses : List JValue) (contexts : List JValue)
    (customerId : Option Nat) : Option JValue :=
  match responses with
  | [] => none
  | r :: rest =>
    if !r.truthy then some (.obj [])
    else if !truthyOpt (r.getKey "requires_context") then some r
    else if !truthyId customerId then some r
    else if !truthyOpt (r.getKey "context_type") then some r
    else
      match contexts with
      | [] => none
      | _ :: ctxRest => supportDialog rest ctxRest customerId

/-- Prompt construction in the retry loops of `_call_support` /
`_call_customer_data`. -/
def mkReminderPrompt (instructions reminder : String) : String :=
  if reminder == "" then instructions
  else instructions ++ "\n\nROUTER REMINDER: " ++ reminder

/-- The retry loop of `_call_support` over the raw texts returned by
the three attempts (`for attempt in range(3)`), also recording the
prompt sent on each attempt performed. -/
def callSupportAux (instructions : String) :
    List String → String → String → JValue × List String
  | [], _, lastText =>
    (coerceSupportText (if lastText == "" then "Support response unavailable." else lastText),
      [])
  | t :: ts, reminder, _ =>
    let prompt := mkReminderPrompt instructions reminder
    let data := validateSupportPayload (parseJson t) true
    if truthyOpt (data.getKey "_invalid") then
      let next := callSupportAux instructions ts (pyFStr ((data.getKey "_invalid").getD .null)) t
      (next.1, prompt :: next.2)
    else (data, [prompt])

/-- Function `_call_support` (result). -/
def callSupport (instructions t1 t2 t3 : String) : JValue :=
  (callSupportAux instructions [t1, t2, t3] "" "").1

/-- Function `_call_support` (prompts sent). -/
def callSupportPrompts (instructions t1 t2 t3 : String) : List String :=
  (callSupportAux instructions [t1, t2, t3] "" "").2

/-- The fallback payload `_call_customer_data` synthesizes after three
schema violations. -/
def customerDataFallback (lastText : String) : JValue :=
  .obj [("handoff_summary", .str "Customer Data agent returned unexpected output."),
    ("recommended_next_agent", .str "router"),
    ("context_type", .str "general"),
    ("context_payload", .obj [("raw_text",
      .str (if lastText == "" then "No data returned." else lastText))]),
    ("notes_for_router", .str "Router fallback activated after schema violations.")]

/-- The retry loop of `_call_customer_data`. -/
def callCustomerDataAux (instructions : String) :
    List String → String → String → JValue × List String
  | [], _, lastText => (customerDataFallback lastText, [])
  | t :: ts, reminder, _ =>
    let prompt := mkReminderPrompt instructions reminder
    let data := validateCustomerPayload (parseJson t)
    if truthyOpt (data.getKey "_invalid") then
      let next := callCustomerDataAux instructions ts (pyFStr ((data.getKey "_invalid").getD .null)) t
      (next.1, prompt :: next.2)
    else (data, [prompt])

/-- Function `_call_customer_data` (result). -/
def callCustomerData (instructions t1 t2 t3 : String) : JValue :=
  (callCustomerDataAux instructions [t1, t2, t3] "" "").1

/-- Function `_call_customer_data` (prompts sent). -/
def callCustomerDataPrompts (instructions t1 t2 t3 : String) : List String :=
  (callCustomerDataAux instructions [t1, t2, t3] "" "").2

/-! ### `CustomerServiceDB.list_customers` (`database_utils.py`) -/

/-- One row of the `customers` table, restricted to the columns the
`list_customers` SELECT returns. -/
structure CustomerRow where
  id : Int
  name : String
  email : String
  status : String
deriving Repr

/-- JSON object for one selected row. -/
def rowJson (r : CustomerRow) : JValue :=
  .obj [("id", .num r.id), ("name", .str r.name), ("email", .str r.email),
    ("status", .str r.status)]

/-- The rows `list_customers` selects: `WHERE status = ?` only when the
status argument is truthy, then `LIMIT limit` (the table scan order is
the list order; the query has no ORDER BY). -/
def listCustomersRows (rows : List CustomerRow) (status : Option String)
    (limit : Nat) : List CustomerRow :=
  let filtered :=
    match status with
    | some s =>
      if s != "" then rows.filter (fun (r : CustomerRow) => r.status == s)
      else rows
    | none => rows
  filtered.take limit

/-- Function `CustomerServiceDB.list_customers`: JSON dump of the selected rows,
or the plain not-found message when no row matches. -/
def listCustomers (rows : List CustomerRow) (status : Option String)
    (limit : Nat) : String :=
  let results := listCustomersRows rows status limit
  if results.isEmpty then "No customers found matching the criteria."
  else dumps (.arr (results.map rowJson))

/-- Function `tool_list_customers` in `mcp_server.py` forwards only the status
filter, so `list_customers` always runs with its default `limit=100`;
the MCP input schema for the tool likewise declares no limit field. -/
def toolListCustomers (rows : List CustomerRow) (status : Option String) : String :=
  listCustomers rows status 100

/-- The Support Specialist payload invariant (C9): a nonempty dict in
which a truthy `requires_context` comes with a `context_type` and a
falsy one with a `customer_response`, and which carries no truthy
`_invalid` marker. -/
def supportOk (r : JValue) : Bool :=
  r.isObj && r.truthy
    && (!truthyOpt (r.getKey "requires_context") || (r.getKey "context_type").isSome)
    && (truthyOpt (r.getKey "requires_context") || (r.getKey "customer_response").isSome)
    && !truthyOpt (r.getKey "_invalid")

/-! ### Concrete payloads and queries used in the theorems -/

/-- A Data payload with both required keys but without the optional
`recommended_next_agent`. -/
def dataPayloadNoNext : JValue :=
  .obj [("handoff_summary", .str "Fetched the record."), ("context_payload", .obj [])]

/-- A validated support payload requesting billing context. -/
def needsBillingPayload : JValue :=
  .obj [("requires_context", .bool true), ("context_type", .str "billing"),
    ("notes_for_router", .str "Need billing history from the router.")]

/-- A validated final support payload. -/
def finalSupportPayload : JValue :=
  .obj [("requires_context", .bool false), ("context_type", .null),
    ("customer_response", .str "All set.")]

/-- Demo scenario 3 from `SCENARIOS`. -/
def scenario3Query : String :=
  "I\x27ve been charged twice, please refund immediately!"

/-! ## Theorems -/

/-- C3: `_classify_query` is total: every input string maps to one of
the nine enumerated scenario labels, with `generic` as the default. -/
theorem classify_query_total (query : String) :
    classifyQuery query ∈
      ["premium_report", "active_open", "update_email_history",
       "billing_escalation", "upgrade", "account_help", "simple_lookup",
       "multi_intent", "generic"] := by
  unfold classifyQuery
  dsimp only
  repeat' split
  all_goals decide

/-- The classification chain is exactly first-match-wins evaluation of
the ordered rule list `classifyRules` over the lower-cased query. -/
theorem classify_query_eq_firstMatch (query : String) :
    classifyQuery query = firstMatch classifyRules (strLower query) := rfl

/-- C4 counterexample: the query `"please cancel my billing"` contains
the bare billing/cancel keywords `"cancel"` and `"billing"` and no
`"customer id"` phrase, yet classifies as `generic`, not
`billing_escalation`: the bare-billing rule only covers
`"charged twice"` and `"refund"`. -/
theorem classify_bare_cancel_counterexample :
    strContains (strLower "please cancel my billing") "cancel" = true
      ∧ strContains (strLower "please cancel my billing") "billing" = true
      ∧ strContains (strLower "please cancel my billing") "customer id" = false
      ∧ classifyQuery "please cancel my billing" = "generic" := by
  refine ⟨by decide, by decide, by decide, by decide⟩

/-- C4 (amended): rules are evaluated in the fixed source order with
the first match winning (`classifyQuery` equals first-match evaluation
of the ordered rule list), and every lower-cased query containing
`"charged twice"` or `"refund"` that matches none of the three
higher-priority rules lands in `billing_escalation` whether or not an
id phrase is present; bare `"cancel"`/`"billing"` keywords without an
id phrase fall through past both billing rules. -/
theorem classify_query_rule_order :
    (∀ query : String,
        classifyQuery query = firstMatch classifyRules (strLower query))
    ∧ (∀ query : String,
        (strContains (strLower query) "charged twice" = true
          ∨ strContains (strLower query) "refund" = true) →
        strContains (strLower query) "high-priority" = false →
        strContains (strLower query) "premium" = false →
        (strContains (strLower query) "active customers" = false
          ∨ strContains (strLower query) "open tickets" = false) →
        (strContains (strLower query) "update my email" = false
          ∨ strContains (strLower query) "ticket history" = false) →
        classifyQuery query = "billing_escalation")
    ∧ (∀ query : String,
        strContains (strLower query) "customer id" = false →
        strContains (strLower query) "charged twice" = false →
        strContains (strLower query) "refund" = false →
        classifyQuery query ≠ "billing_escalation") := by
  refine ⟨fun _ => rfl, ?_, ?_⟩
  · intro query hkw h1 h2 h3 h4
    unfold classifyQuery
    rcases hkw with hkw | hkw <;>
      rcases h3 with h3 | h3 <;>
        rcases h4 with h4 | h4 <;>
          simp [h1, h2, h3, h4, hkw, ite_self]
  · intro query hid hct hrf
    unfold classifyQuery
    simp [hid, hct, hrf]
    repeat' split
    all_goals decide

/-- Witness for `classify_query_rule_order` at a concrete query. -/
theorem classify_query_rule_order_witness :
    classifyQuery "refund me now" = "billing_escalation" :=
  classify_query_rule_order.2.1 "refund me now" (Or.inr (by decide))
    (by decide) (by decide) (Or.inl (by decide)) (Or.inl (by decide))

/-- C10: `list_customers` is called through the MCP tool layer with no
limit argument, so the default `LIMIT 100` always applies: at most 100
rows are returned no matter how many match the status filter, and when
no row matches the result is the plain not-found message rather than an
empty JSON list. -/
theorem list_customers_limit :
    (∀ (rows : List CustomerRow) (status : Option String),
        (listCustomersRows rows status 100).length ≤ 100
          ∧ toolListCustomers rows status = listCustomers rows status 100)
    ∧ (∀ (rows : List CustomerRow) (status : Option String),
        listCustomersRows rows status 100 = [] →
        listCustomers rows status 100 = "No customers found matching the criteria.")
    ∧ (∀ (rows : List CustomerRow) (status : Option String),
        listCustomersRows rows status 100 ≠ [] →
        listCustomers rows status 100
          = dumps (.arr ((listCustomersRows rows status 100).map rowJson))) := by
  refine ⟨fun rows status => ⟨?_, rfl⟩, fun rows status h => ?_, fun rows status h => ?_⟩
  · unfold listCustomersRows
    exact le_trans (List.length_take_le 100 _) (le_refl 100)
  · simp [listCustomers, h]
  · simp [listCustomers, h]

/-- C7: `_parse_json` salvages a code-fenced JSON object surrounded by
prose — both via the fence-stripping path and via slicing between the
first `\x7b` and the last `\x7d` — returning exactly the embedded
object; and when all parsing fails it returns the empty dict, which
strict validation then flags as invalid rather than raising. -/
theorem parse_json_salvage :
    parseJson "Sure! ```json\n\x7b\"requires_context\": false, \"customer_response\": \"ok\"\x7d\n```"
        = .obj [("requires_context", .bool false), ("customer_response", .str "ok")]
      ∧ parseJson "```json\n\x7b\"requires_context\": false, \"customer_response\": \"ok\"\x7d\n```"
        = .obj [("requires_context", .bool false), ("customer_response", .str "ok")]
      ∧ parseJson "Sorry, I cannot help with that." = .obj []
      ∧ validateSupportPayload (parseJson "Sorry, I cannot help with that.") true
        = invalidObj "Response was not valid JSON." :=
  ⟨rfl, rfl, rfl, rfl⟩

/-- A payload whose key `k` is present with a truthy value is itself
truthy (a nonempty dict). -/
theorem truthy_of_getKey_truthy {r : JValue} {k : String}
    (h : truthyOpt (r.getKey k) = true) : r.truthy = true := by
  cases r with
  | obj kvs =>
    cases kvs with
    | nil => simp [JValue.getKey, List.find?, truthyOpt] at h
    | cons a l => simp [JValue.truthy]
  | null => simp [JValue.getKey, truthyOpt] at h
  | bool b => simp [JValue.getKey, truthyOpt] at h
  | num n => simp [JValue.getKey, truthyOpt] at h
  | str s => simp [JValue.getKey, truthyOpt] at h
  | arr xs => simp [JValue.getKey, truthyOpt] at h

/-- A falsy dict is the empty dict. -/
theorem eq_empty_obj_of_not_truthy {r : JValue} (h1 : r.isObj = true)
    (h2 : r.truthy = false) : r = .obj [] := by
  cases r with
  | obj kvs =>
    cases kvs with
    | nil => rfl
    | cons a l => simp [JValue.truthy] at h2
  | null => simp [JValue.isObj] at h1
  | bool b => simp [JValue.isObj] at h1
  | num n => simp [JValue.isObj] at h1
  | str s => simp [JValue.isObj] at h1
  | arr xs => simp [JValue.isObj] at h1

/-- C1: `_support_dialog` termination cases.  For a support payload
`r` (a dict, as `_call_support` guarantees): with `requires_context`
falsy the loop stops at once with `r` as the final payload; with
`requires_context` truthy but no usable customer id, or no
`context_type`, it stops early with `r`, which
`_format_support_response` then surfaces from `notes_for_router` or as
the generic needs-more message.  The result is independent of the
remaining oracle, so the loop cannot run on in these cases. -/
theorem support_dialog_early_termination (r : JValue)
    (rest contexts : List JValue) (cid : Option Nat) (hobj : r.isObj = true) :
    (truthyOpt (r.getKey "requires_context") = false →
        supportDialog (r :: rest) contexts cid = some r)
    ∧ (truthyOpt (r.getKey "requires_context") = true → truthyId cid = false →
        supportDialog (r :: rest) contexts cid = some r)
    ∧ (truthyOpt (r.getKey "requires_context") = true →
        truthyOpt (r.getKey "context_type") = false →
        supportDialog (r :: rest) contexts cid = some r)
    ∧ (truthyOpt (r.getKey "requires_context") = true →
        truthyOpt (r.getKey "notes_for_router") = true →
        formatSupportResponse r = pyFStr ((r.getKey "notes_for_router").getD .null))
    ∧ (truthyOpt (r.getKey "requires_context") = true →
        truthyOpt (r.getKey "notes_for_router") = false →
        formatSupportResponse r
          = "Support requires more "
              ++ pyFStr ((r.getKey "context_type").getD (.str "additional information"))
              ++ " before responding.") := by
  refine ⟨?_, ?_, ?_, ?_, ?_⟩
  · intro h
    by_cases ht : r.truthy = true
    · simp [supportDialog, ht, h]
    · have he := eq_empty_obj_of_not_truthy hobj (by simpa using ht)
      subst he
      simp [supportDialog, JValue.truthy]
  · intro h1 h2
    have ht := truthy_of_getKey_truthy h1
    simp [supportDialog, ht, h1, h2]
  · intro h1 h2
    have ht := truthy_of_getKey_truthy h1
    cases hc : truthyId cid
    · simp [supportDialog, ht, h1, hc]
    · simp [supportDialog, ht, h1, h2, hc]
  · intro h1 h2
    have ht := truthy_of_getKey_truthy h1
    simp [formatSupportResponse, ht, h1, h2]
  · intro h1 h2
    have ht := truthy_of_getKey_truthy h1
    simp [formatSupportResponse, ht, h1, h2]

/-- Witness for `support_dialog_early_termination` at concrete
payloads. -/
theorem support_dialog_early_termination_witness :
    supportDialog [finalSupportPayload] [] (some 5) = some finalSupportPayload
      ∧ supportDialog [needsBillingPayload] [] none = some needsBillingPayload
      ∧ formatSupportResponse needsBillingPayload
          = "Need billing history from the router." :=
  ⟨(support_dialog_early_termination finalSupportPayload [] [] (some 5) rfl).1 rfl,
    (support_dialog_early_termination needsBillingPayload [] [] none rfl).2.1 rfl rfl,
    ((support_dialog_early_termination needsBillingPayload [] [] none rfl).2.2.2.1
        rfl rfl).trans rfl⟩

/-- C6 counterexample: for demo scenario 3 a customer id *is* known —
the keyword heuristic maps "charged twice"/"refund" to customer 4 — so
after Support requests billing context the dialog loops back to the
Data specialist instead of terminating early: with one more support
round supplied it ends on that later payload, not on the billing
request. -/
theorem billing_scenario_counterexample :
    extractCustomerId scenario3Query = some 4
      ∧ supportDialog [needsBillingPayload, finalSupportPayload]
          [customerDataFallback ""] (extractCustomerId scenario3Query)
        = some finalSupportPayload :=
  ⟨by decide, rfl⟩

/-- C6 (amended): scenario 3 classifies as `billing_escalation` and
Support is consulted first with no context, but the keyword heuristic
infers `customer_id=4`, so when Support requests billing context the
router fetches it from the Data specialist and re-enters the loop
rather than terminating early. -/
theorem billing_scenario_amended :
    classifyQuery scenario3Query = "billing_escalation"
      ∧ extractCustomerId scenario3Query = some 4
      ∧ ∀ (rest contexts : List JValue) (ctx : JValue),
          supportDialog (needsBillingPayload :: rest) (ctx :: contexts)
              (extractCustomerId scenario3Query)
            = supportDialog rest contexts (some 4) := by
  refine ⟨by decide, by decide, fun rest contexts ctx => ?_⟩
  have h : extractCustomerId scenario3Query = some 4 := by decide
  rw [h]
  rfl

/-- Witness for `list_customers_limit` at a concrete table. -/
theorem list_customers_limit_witness :
    listCustomers [] none 100 = "No customers found matching the criteria."
      ∧ listCustomers [⟨1, "Ada", "ada@x.com", "active"⟩] none 100
          = dumps (.arr [rowJson ⟨1, "Ada", "ada@x.com", "active"⟩]) :=
  ⟨list_customers_limit.2.1 [] none rfl,
    list_customers_limit.2.2 [⟨1, "Ada", "ada@x.com", "active"⟩] none
      (List.cons_ne_nil _ _)⟩

/-! ### Association-list lemmas for `setPairs` / `setKey` -/

theorem find?_setPairs_ne (kvs : List (String × JValue)) (k k' : String)
    (v : JValue) (h : (k == k') = false) :
    (setPairs kvs k v).find? (fun kv => kv.1 == k')
      = kvs.find? (fun kv => kv.1 == k') := by
  induction kvs with
  | nil => simp [setPairs, List.find?, h]
  | cons a rest ih =>
    obtain ⟨a1, a2⟩ := a
    cases ha : a1 == k with
    | true =>
      have e : a1 = k := by simpa using ha
      subst e
      simp [setPairs, ha, List.find?, h]
    | false =>
      cases hb : a1 == k' with
      | true => simp [setPairs, ha, List.find?, hb]
      | false => simp [setPairs, ha, List.find?, hb, ih]

theorem find?_setPairs_self (kvs : List (String × JValue)) (k : String)
    (v : JValue) :
    ((setPairs kvs k v).find? (fun kv => kv.1 == k)).map (·.2) = some v := by
  induction kvs with
  | nil => simp [setPairs, List.find?]
  | cons a rest ih =>
    obtain ⟨a1, a2⟩ := a
    cases ha : a1 == k with
    | true => simp [setPairs, ha, List.find?]
    | false => simp [setPairs, ha, List.find?, ih]

theorem setPairs_ne_nil (kvs : List (String × JValue)) (k : String)
    (v : JValue) : setPairs kvs k v ≠ [] := by
  cases kvs with
  | nil => simp [setPairs]
  | cons a rest =>
    obtain ⟨a1, a2⟩ := a
    simp only [setPairs]
    split <;> simp

theorem isObj_setKey (p : JValue) (k : String) (v : JValue) :
    (p.setKey k v).isObj = p.isObj := by
  cases p <;> rfl

theorem getKey_setKey_ne {p : JValue} (hobj : p.isObj = true)
    (k k' : String) (v : JValue) (h : k' ≠ k) :
    (p.setKey k v).getKey k' = p.getKey k' := by
  cases p with
  | obj kvs =>
    have hb : (k == k') = false := by
      simpa using fun e => h e.symm
    simp [JValue.setKey, JValue.getKey, find?_setPairs_ne kvs k k' v hb]
  | null => simp [JValue.isObj] at hobj
  | bool b => simp [JValue.isObj] at hobj
  | num n => simp [JValue.isObj] at hobj
  | str s => simp [JValue.isObj] at hobj
  | arr xs => simp [JValue.isObj] at hobj

theorem getKey_setKey_self {p : JValue} (hobj : p.isObj = true)
    (k : String) (v : JValue) : (p.setKey k v).getKey k = some v := by
  cases p with
  | obj kvs => simp [JValue.setKey, JValue.getKey, find?_setPairs_self kvs k v]
  | null => simp [JValue.isObj] at hobj
  | bool b => simp [JValue.isObj] at hobj
  | num n => simp [JValue.isObj] at hobj
  | str s => simp [JValue.isObj] at hobj
  | arr xs => simp [JValue.isObj] at hobj

theorem truthy_setKey {p : JValue} (hobj : p.isObj = true)
    (k : String) (v : JValue) : (p.setKey k v).truthy = true := by
  cases p with
  | obj kvs =>
    have h := setPairs_ne_nil kvs k v
    cases hs : setPairs kvs k v with
    | nil => exact absurd hs h
    | cons a rest => simp [JValue.setKey, JValue.truthy, hs]
  | null => simp [JValue.isObj] at hobj
  | bool b => simp [JValue.isObj] at hobj
  | num n => simp [JValue.isObj] at hobj
  | str s => simp [JValue.isObj] at hobj
  | arr xs => simp [JValue.isObj] at hobj

theorem isSome_of_truthyOpt {o : Option JValue} (h : truthyOpt o = true) :
    o.isSome = true := by
  cases o with
  | none => simp [truthyOpt] at h
  | some v => rfl

theorem truthy_of_getKey_isSome {r : JValue} {k : String}
    (h : (r.getKey k).isSome = true) : r.truthy = true := by
  cases r with
  | obj kvs =>
    cases kvs with
    | nil => simp [JValue.getKey, List.find?] at h
    | cons a l => simp [JValue.truthy]
  | null => simp [JValue.getKey] at h
  | bool b => simp [JValue.getKey] at h
  | num n => simp [JValue.getKey] at h
  | str s => simp [JValue.getKey] at h
  | arr xs => simp [JValue.getKey] at h

/-! ### C8 -/

/-- C8 counterexample: a Data payload with both required keys but no
`recommended_next_agent` validates successfully with the default
added, so validating this valid payload is *not* the identity. -/
theorem validate_identity_counterexample :
    (validateCustomerPayload dataPayloadNoNext).hasKey "recommended_next_agent" = true
      ∧ dataPayloadNoNext.hasKey "recommended_next_agent" = false
      ∧ validateCustomerPayload dataPayloadNoNext ≠ dataPayloadNoNext := by
  refine ⟨by decide, by decide, fun h => ?_⟩
  have h2 := congrArg (fun v => JValue.hasKey v "recommended_next_agent") h
  exact absurd h2 (by decide)

/-- C8 (amended): validation never mutates a present key.  Strict
Support validation is the identity on payloads satisfying the
invariant as given (truthy `requires_context` with truthy
`context_type`, or falsy `requires_context` with `context_type`
present as `null` and `customer_response` present).  Data validation
is the identity when `recommended_next_agent` is also present;
otherwise it only appends that key with the default `"router"`,
leaving every other key unchanged, and it is idempotent. -/
theorem validate_round_trip :
    (∀ p : JValue, p.isObj = true →
        truthyOpt (p.getKey "requires_context") = true →
        truthyOpt (p.getKey "context_type") = true →
        validateSupportPayload p true = p)
    ∧ (∀ (p v : JValue), p.isObj = true →
        p.getKey "requires_context" = some v → v.truthy = false →
        p.getKey "context_type" = some .null →
        (p.getKey "customer_response").isSome = true →
        validateSupportPayload p true = p)
    ∧ (∀ p : JValue, p.isObj = true →
        p.hasKey "handoff_summary" = true → p.hasKey "context_payload" = true →
        p.hasKey "recommended_next_agent" = true →
        validateCustomerPayload p = p)
    ∧ (∀ p : JValue, p.isObj = true →
        p.hasKey "handoff_summary" = true → p.hasKey "context_payload" = true →
        p.hasKey "recommended_next_agent" = false →
        validateCustomerPayload p = p.setKey "recommended_next_agent" (.str "router")
          ∧ ∀ k : String, k ≠ "recommended_next_agent" →
              (validateCustomerPayload p).getKey k = p.getKey k)
    ∧ (∀ p : JValue, p.isObj = true →
        p.hasKey "handoff_summary" = true → p.hasKey "context_payload" = true →
        validateCustomerPayload (validateCustomerPayload p)
          = validateCustomerPayload p) := by
  refine ⟨?_, ?_, ?_, ?_, ?_⟩
  · intro p hobj hreq hct
    have ht := truthy_of_getKey_truthy hreq
    have hk : (p.getKey "requires_context").isSome = true := isSome_of_truthyOpt hreq
    simp [validateSupportPayload, JValue.hasKey, hobj, ht, hk, hreq, hct]
  · intro p v hobj hreq hv hct hcr
    have hk : (p.getKey "requires_context").isSome = true := by simp [hreq]
    have ht : p.truthy = true := truthy_of_getKey_isSome hk
    have hreq' : truthyOpt (p.getKey "requires_context") = false := by
      simp [hreq, truthyOpt, hv]
    simp [validateSupportPayload, JValue.hasKey, hobj, ht, hk, hreq', hct, hcr]
  · intro p hobj h1 h2 h3
    have h1' : (p.getKey "handoff_summary").isSome = true := h1
    have h2' : (p.getKey "context_payload").isSome = true := h2
    have h3' : (p.getKey "recommended_next_agent").isSome = true := h3
    have ht : p.truthy = true := truthy_of_getKey_isSome h1'
    simp [validateCustomerPayload, JValue.hasKey, hobj, ht, h1', h2', h3']
  · intro p hobj h1 h2 h3
    have h1' : (p.getKey "handoff_summary").isSome = true := h1
    have h2' : (p.getKey "context_payload").isSome = true := h2
    have h3' : (p.getKey "recommended_next_agent").isSome = false := h3
    have ht : p.truthy = true := truthy_of_getKey_isSome h1'
    have he : validateCustomerPayload p
        = p.setKey "recommended_next_agent" (.str "router") := by
      simp [validateCustomerPayload, JValue.hasKey, hobj, ht, h1', h2', h3']
    exact ⟨he, fun k hk => by rw [he, getKey_setKey_ne hobj _ k _ hk]⟩
  · intro p hobj h1 h2
    have h1' : (p.getKey "handoff_summary").isSome = true := h1
    have h2' : (p.getKey "context_payload").isSome = true := h2
    have ht : p.truthy = true := truthy_of_getKey_isSome h1'
    cases h3 : p.hasKey "recommended_next_agent" with
    | true =>
      have h3' : (p.getKey "recommended_next_agent").isSome = true := h3
      have he : validateCustomerPayload p = p := by
        simp [validateCustomerPayload, JValue.hasKey, hobj, ht, h1', h2', h3']
      rw [he, he]
    | false =>
      have h3' : (p.getKey "recommended_next_agent").isSome = false := h3
      have he : validateCustomerPayload p
          = p.setKey "recommended_next_agent" (.str "router") := by
        simp [validateCustomerPayload, JValue.hasKey, hobj, ht, h1', h2', h3']
      rw [he]
      have hobj' : (p.setKey "recommended_next_agent" (.str "router")).isObj = true := by
        rw [isObj_setKey]; exact hobj
      have g1 : ((p.setKey "recommended_next_agent" (.str "router")).getKey
          "handoff_summary").isSome = true := by
        rw [getKey_setKey_ne hobj _ _ _ (by decide)]; exact h1'
      have g2 : ((p.setKey "recommended_next_agent" (.str "router")).getKey
          "context_payload").isSome = true := by
        rw [getKey_setKey_ne hobj _ _ _ (by decide)]; exact h2'
      have g3 : ((p.setKey "recommended_next_agent" (.str "router")).getKey
          "recommended_next_agent").isSome = true := by
        rw [getKey_setKey_self hobj]; rfl
      have ht' := truthy_setKey hobj "recommended_next_agent" (.str "router")
      simp [validateCustomerPayload, JValue.hasKey, hobj', ht', g1, g2, g3]

/-! ### C9 -/

/-- Strict support validation either flags the payload as invalid or
outputs a payload satisfying the support invariant. -/
theorem supportOk_validate (p : JValue) :
    truthyOpt ((validateSupportPayload p true).getKey "_invalid") = true
      ∨ supportOk (validateSupportPayload p true) = true := by
  cases hobj : p.isObj with
  | false =>
    have he : validateSupportPayload p true
        = invalidObj "Response was not valid JSON." := by
      simp [validateSupportPayload, hobj]
    rw [he]
    exact Or.inl (by decide)
  | true =>
    cases ht : p.truthy with
    | false =>
      have he : validateSupportPayload p true
          = invalidObj "Response was not valid JSON." := by
        simp [validateSupportPayload, hobj, ht]
      rw [he]
      exact Or.inl (by decide)
    | true =>
      cases hk : p.hasKey "requires_context" with
      | false =>
        have he : validateSupportPayload p true
            = invalidObj "Missing requires_context flag." := by
          simp [validateSupportPayload, hobj, ht, hk]
        rw [he]
        exact Or.inl (by decide)
      | true =>
        cases hrq : truthyOpt (p.getKey "requires_context") with
        | true =>
          cases hctx : truthyOpt (p.getKey "context_type") with
          | false =>
            have he : validateSupportPayload p true
                = invalidObj "requires_context=true but context_type missing." := by
              simp [validateSupportPayload, hobj, ht, hk, hrq, hctx]
            rw [he]
            exact Or.inl (by decide)
          | true =>
            have he : validateSupportPayload p true = p := by
              simp [validateSupportPayload, hobj, ht, hk, hrq, hctx]
            rw [he]
            cases hinv : truthyOpt (p.getKey "_invalid") with
            | true => exact Or.inl rfl
            | false =>
              refine Or.inr ?_
              simp [supportOk, hobj, ht, hrq, isSome_of_truthyOpt hctx, hinv]
        | false =>
          -- p2 is either p itself or p with context_type set to null
          have main : ∀ p2 : JValue, validateSupportPayload p true
                = (if !p2.hasKey "customer_response" then
                    invalidObj "requires_context=false but customer_response missing."
                  else p2) →
              p2.isObj = true → p2.truthy = true →
              truthyOpt (p2.getKey "requires_context") = false →
              truthyOpt ((validateSupportPayload p true).getKey "_invalid") = true
                ∨ supportOk (validateSupportPayload p true) = true := by
            intro p2 he hobj2 ht2 hrq2
            cases hcr : p2.hasKey "customer_response" with
            | false =>
              rw [hcr] at he
              rw [he]
              exact Or.inl rfl
            | true =>
              rw [hcr] at he
              have he2 : validateSupportPayload p true = p2 := he.trans rfl
              rw [he2]
              cases hinv : truthyOpt (p2.getKey "_invalid") with
              | true => exact Or.inl rfl
              | false =>
                refine Or.inr ?_
                have hcr' : (p2.getKey "customer_response").isSome = true := hcr
                simp [supportOk, hobj2, ht2, hrq2, hcr', hinv]
          cases hct : p.getKey "context_type" with
          | none =>
            refine main p ?_ hobj ht hrq
            simp [validateSupportPayload, hobj, ht, hk, hrq, hct]
          | some v =>
            cases v with
            | null =>
              refine main p ?_ hobj ht hrq
              simp [validateSupportPayload, hobj, ht, hk, hrq, hct]
            | str s =>
              by_cases hs : s = "null"
              · subst hs
                refine main p ?_ hobj ht hrq
                simp [validateSupportPayload, hobj, ht, hk, hrq, hct]
              · have hb : (s == "null") = false := beq_eq_false_iff_ne.mpr hs
                refine main (p.setKey "context_type" .null) ?_
                    ((isObj_setKey p _ _).trans hobj) (truthy_setKey hobj _ _) ?_
                · simp [validateSupportPayload, hobj, ht, hk, hrq, hct, hb, hs]
                · rw [getKey_setKey_ne hobj _ _ _ (by decide)]
                  exact hrq
            | bool b =>
              refine main (p.setKey "context_type" .null) ?_
                  ((isObj_setKey p _ _).trans hobj) (truthy_setKey hobj _ _) ?_
              · simp [validateSupportPayload, hobj, ht, hk, hrq, hct]
              · rw [getKey_setKey_ne hobj _ _ _ (by decide)]
                exact hrq
            | num n =>
              refine main (p.setKey "context_type" .null) ?_
                  ((isObj_setKey p _ _).trans hobj) (truthy_setKey hobj _ _) ?_
              · simp [validateSupportPayload, hobj, ht, hk, hrq, hct]
              · rw [getKey_setKey_ne hobj _ _ _ (by decide)]
                exact hrq
            | arr xs =>
              refine main (p.setKey "context_type" .null) ?_
                  ((isObj_setKey p _ _).trans hobj) (truthy_setKey hobj _ _) ?_
              · simp [validateSupportPayload, hobj, ht, hk, hrq, hct]
              · rw [getKey_setKey_ne hobj _ _ _ (by decide)]
                exact hrq
            | obj kvs =>
              refine main (p.setKey "context_type" .null) ?_
                  ((isObj_setKey p _ _).trans hobj) (truthy_setKey hobj _ _) ?_
              · simp [validateSupportPayload, hobj, ht, hk, hrq, hct]
              · rw [getKey_setKey_ne hobj _ _ _ (by decide)]
                exact hrq

/-- The keyword-scan fallback always satisfies the support
invariant. -/
theorem supportOk_coerce (t : String) : supportOk (coerceSupportText t) = true := by
  unfold coerceSupportText
  dsimp only
  split <;>
    simp [supportOk, JValue.isObj, JValue.truthy, JValue.getKey, List.find?, truthyOpt]

/-- Every result of the `_call_support` retry loop satisfies the
support invariant, whichever attempt succeeds. -/
theorem supportOk_callSupportAux (instructions : String) (ts : List String) :
    ∀ reminder lastText : String,
      supportOk (callSupportAux instructions ts reminder lastText).1 = true := by
  induction ts with
  | nil => intro reminder lastText; exact supportOk_coerce _
  | cons t ts ih =>
    intro reminder lastText
    cases hinv : truthyOpt ((validateSupportPayload (parseJson t) true).getKey "_invalid") with
    | true =>
      simp only [callSupportAux, hinv, if_true]
      exact ih _ _
    | false =>
      have hok := (supportOk_validate (parseJson t)).resolve_left (by simp [hinv])
      simp only [callSupportAux, hinv, if_false]
      exact hok

/-- C9: every payload `_call_support` hands back to the router —
strictly validated on any of the three attempts, or synthesized by the
text-coercion fallback — is a nonempty dict satisfying the Support
Specialist invariant (truthy `requires_context` ⇒ `context_type`
present; falsy ⇒ `customer_response` present) and carries no truthy
`_invalid` marker; payloads violating the invariant are rejected by
strict validation as `\x7b_invalid: reason\x7d` and never returned. -/
theorem call_support_invariant :
    (∀ instructions t1 t2 t3 : String,
        supportOk (callSupport instructions t1 t2 t3) = true)
    ∧ (∀ p : JValue, p.isObj = true →
        truthyOpt (p.getKey "requires_context") = true →
        truthyOpt (p.getKey "context_type") = false →
        validateSupportPayload p true
          = invalidObj "requires_context=true but context_type missing.")
    ∧ (∀ p : JValue, p.isObj = true → p.truthy = true →
        p.hasKey "requires_context" = true →
        truthyOpt (p.getKey "requires_context") = false →
        p.hasKey "customer_response" = false →
        validateSupportPayload p true
          = invalidObj "requires_context=false but customer_response missing.") := by
  refine ⟨?_, ?_, ?_⟩
  · intro instructions t1 t2 t3
    exact supportOk_callSupportAux instructions [t1, t2, t3] "" ""
  · intro p hobj hrq hctx
    have ht := truthy_of_getKey_truthy hrq
    have hk : p.hasKey "requires_context" = true := isSome_of_truthyOpt hrq
    simp [validateSupportPayload, hobj, ht, hk, hrq, hctx]
  · intro p hobj ht hk hrq hcr
    cases hct : p.getKey "context_type" with
    | none => simp [validateSupportPayload, hobj, ht, hk, hrq, hct, hcr]
    | some v =>
      cases v with
      | null => simp [validateSupportPayload, hobj, ht, hk, hrq, hct, hcr]
      | str s =>
        by_cases hs : s = "null"
        · subst hs
          simp [validateSupportPayload, hobj, ht, hk, hrq, hct, hcr]
        · have hb : (s == "null") = false := beq_eq_false_iff_ne.mpr hs
          have hcr2 : (p.setKey "context_type" JValue.null).hasKey "customer_response"
              = false := by
            show ((p.setKey "context_type" JValue.null).getKey "customer_response").isSome
              = false
            rw [getKey_setKey_ne hobj _ _ _ (by decide)]
            exact hcr
          simp [validateSupportPayload, hobj, ht, hk, hrq, hct, hb, hs, hcr2]
      | bool b =>
        have hcr2 : (p.setKey "context_type" JValue.null).hasKey "customer_response"
            = false := by
          show ((p.setKey "context_type" JValue.null).getKey "customer_response").isSome
            = false
          rw [getKey_setKey_ne hobj _ _ _ (by decide)]
          exact hcr
        simp [validateSupportPayload, hobj, ht, hk, hrq, hct, hcr2]
      | num n =>
        have hcr2 : (p.setKey "context_type" JValue.null).hasKey "customer_response"
            = false := by
          show ((p.setKey "context_type" JValue.null).getKey "customer_response").isSome
            = false
          rw [getKey_setKey_ne hobj _ _ _ (by decide)]
          exact hcr
        simp [validateSupportPayload, hobj, ht, hk, hrq, hct, hcr2]
      | arr xs =>
        have hcr2 : (p.setKey "context_type" JValue.null).hasKey "customer_response"
            = false := by
          show ((p.setKey "context_type" JValue.null).getKey "customer_response").isSome
            = false
          rw [getKey_setKey_ne hobj _ _ _ (by decide)]
          exact hcr
        simp [validateSupportPayload, hobj, ht, hk, hrq, hct, hcr2]
      | obj kvs =>
        have hcr2 : (p.setKey "context_type" JValue.null).hasKey "customer_response"
            = false := by
          show ((p.setKey "context_type" JValue.null).getKey "customer_response").isSome
            = false
          rw [getKey_setKey_ne hobj _ _ _ (by decide)]
          exact hcr
        simp [validateSupportPayload, hobj, ht, hk, hrq, hct, hcr2]

/-- Witness for `call_support_invariant` at concrete inputs. -/
theorem call_support_invariant_witness :
    supportOk (callSupport "Draft the reply." "not json" "still not json" "nope") = true
      ∧ validateSupportPayload (.obj [("requires_context", .bool true)]) true
          = invalidObj "requires_context=true but context_type missing."
      ∧ validateSupportPayload (.obj [("requires_context", .bool false)]) true
          = invalidObj "requires_context=false but customer_response missing." :=
  ⟨call_support_invariant.1 "Draft the reply." "not json" "still not json" "nope",
    call_support_invariant.2.1 _ rfl (by decide) (by decide),
    call_support_invariant.2.2 _ rfl (by decide) (by decide) (by decide) (by decide)⟩

/-- Witness for `validate_round_trip` at concrete payloads. -/
theorem validate_round_trip_witness :
    validateSupportPayload needsBillingPayload true = needsBillingPayload
      ∧ validateCustomerPayload dataPayloadNoNext
          = dataPayloadNoNext.setKey "recommended_next_agent" (.str "router") :=
  ⟨validate_round_trip.1 needsBillingPayload rfl (by decide) (by decide),
    (validate_round_trip.2.2.2.1 dataPayloadNoNext rfl (by decide) (by decide)
        (by decide)).1⟩

/-! ### C5 -/

theorem isPyWs_of_digit {d : Char} (hd : isPyDigit d = true) : isPyWs d = false := by
  cases hw : isPyWs d with
  | false => rfl
  | true =>
    exfalso
    have he := hw
    simp [isPyWs] at he
    rcases he with ((((rfl | rfl) | rfl) | rfl) | rfl) | rfl <;>
      exact absurd hd (by decide)

theorem charLower_digit {d : Char} (hd : isPyDigit d = true) : charLower d = d := by
  unfold charLower
  cases hc : ('A' ≤ d && d ≤ 'Z') with
  | false => simp
  | true =>
    exfalso
    have h1 : 'A' ≤ d ∧ d ≤ 'Z' := by simpa using hc
    have h2 : '0' ≤ d ∧ d ≤ '9' := by simpa [isPyDigit] using hd
    have h3 : ('A' : Char) ≤ '9' := le_trans h1.1 h2.2
    exact absurd h3 (by decide)

theorem digit_beq_false {d : Char} (hd : isPyDigit d = true) (c0 : Char)
    (h0 : isPyDigit c0 = false) : (d == c0) = false := by
  cases hb : d == c0 with
  | false => rfl
  | true =>
    have e : d = c0 := eq_of_beq hb
    rw [e] at hd
    rw [hd] at h0
    exact Bool.noConfusion h0

theorem takeWhile_all_append (p : Char → Bool) (l1 l2 : List Char)
    (h1 : ∀ c ∈ l1, p c = true)
    (h2 : ∀ c, l2.head? = some c → p c = false) :
    (l1 ++ l2).takeWhile p = l1 := by
  induction l1 with
  | nil =>
    cases l2 with
    | nil => rfl
    | cons c cs => simp [List.takeWhile_cons, h2 c rfl]
  | cons a l ih =>
    have ha := h1 a (by simp)
    simp [List.takeWhile_cons, ha]
    exact ih (fun c hc => h1 c (by simp [hc]))

/-- The common tail `\s*(?:is|:)?\s*(\d+)` of the id pattern captures
exactly the digit run when it follows one space. -/
theorem matchTail_space_digits (ds post : List Char) (hne : ds ≠ [])
    (hd : ∀ c ∈ ds, isPyDigit c = true)
    (hp : ∀ c, post.head? = some c → isPyDigit c = false) :
    matchTail (' ' :: (ds ++ post)) = some (digitsToNat ds) := by
  cases ds with
  | nil => exact absurd rfl hne
  | cons d ds' =>
    have hd0 : isPyDigit d = true := hd d (by simp)
    have hws : isPyWs d = false := isPyWs_of_digit hd0
    have hlow : charLower d = d := charLower_digit hd0
    have hi : (d == 'i') = false := digit_beq_false hd0 'i' (by decide)
    have hcol : (d == ':') = false := digit_beq_false hd0 ':' (by decide)
    rw [List.cons_append]
    have e1 : dropWs (' ' :: d :: (ds' ++ post)) = d :: (ds' ++ post) := by
      show List.dropWhile isPyWs _ = _
      rw [List.dropWhile_cons, if_pos (by decide), List.dropWhile_cons,
        if_neg (by simp [hws])]
    have e5 : dropWs (d :: (ds' ++ post)) = d :: (ds' ++ post) := by
      show List.dropWhile isPyWs _ = _
      rw [List.dropWhile_cons, if_neg (by simp [hws])]
    have e2 : stripLitCI ['i', 's'] (d :: (ds' ++ post)) = none := by
      simp [stripLitCI, hlow, hi]
    have e3 : stripLitCI [':'] (d :: (ds' ++ post)) = none := by
      simp [stripLitCI, hlow, hcol]
    have e4 : (d :: (ds' ++ post)).takeWhile isPyDigit = d :: ds' := by
      have h := takeWhile_all_append isPyDigit (d :: ds') post hd hp
      rwa [List.cons_append] at h
    simp only [matchTail, e1, e2, e3, e5, e4, List.isEmpty_cons,
      Bool.false_eq_true, if_false]

/-- Alternative `customer\s*(?:id)?` anchored at `"customer id "`. -/
theorem matchIdAt_customer_anchor (tail : List Char) :
    matchIdAt ('c' :: 'u' :: 's' :: 't' :: 'o' :: 'm' :: 'e' :: 'r'
        :: ' ' :: 'i' :: 'd' :: ' ' :: tail)
      = matchTail (' ' :: tail) := rfl

/-- Alternative `id` anchored at `"id "`. -/
theorem matchIdAt_id_anchor (tail : List Char) :
    matchIdAt ('i' :: 'd' :: ' ' :: tail) = matchTail (' ' :: tail) := rfl

/-- No match can start at a character that lowercases to neither `c`
nor `i`. -/
theorem matchIdAt_none_head (c : Char) (cs : List Char)
    (h1 : (charLower c == 'c') = false) (h2 : (charLower c == 'i') = false) :
    matchIdAt (c :: cs) = none := by
  simp [matchIdAt, stripLitCI, h1, h2]

/-- `re.search` skips a prefix in which no match can start. -/
theorem searchId_append (pre cs : List Char)
    (h : ∀ c ∈ pre, (charLower c == 'c') = false ∧ (charLower c == 'i') = false) :
    searchId (pre ++ cs) = searchId cs := by
  induction pre with
  | nil => rfl
  | cons a l ih =>
    obtain ⟨h1, h2⟩ := h a (by simp)
    have hm := matchIdAt_none_head a (l ++ cs) h1 h2
    simp [searchId, hm]
    exact ih (fun c hc => h c (by simp [hc]))

/-- If the pattern matches at no suffix, `re.search` fails. -/
theorem searchId_eq_none_of_tails (cs : List Char)
    (h : (cs.tails.all fun l => (matchIdAt l).isNone) = true) :
    searchId cs = none := by
  induction cs with
  | nil => rfl
  | cons a l ih =>
    rw [List.tails_cons, List.all_cons, Bool.and_eq_true] at h
    have h1 : matchIdAt (a :: l) = none := Option.isNone_iff_eq_none.mp h.1
    simp [searchId, h1]
    exact ih h.2

/-- C5: for every query built around an explicit `"customer id N"` or
`"id N"` phrase (no `c`/`i` trigger character before it, no digit
right after the digit run `N`), `_extract_customer_id` returns exactly
the integer denoted by `N`; and for every query in which the id
pattern matches nowhere and no recognized keyword occurs, it returns
`None` rather than a guessed value. -/
theorem extract_customer_id_spec :
    (∀ pre ds post : String,
        (∀ c ∈ pre.data, charLower c ≠ 'c' ∧ charLower c ≠ 'i') →
        ds.data ≠ [] →
        (∀ c ∈ ds.data, isPyDigit c = true) →
        (∀ c, post.data.head? = some c → isPyDigit c = false) →
        extractCustomerId (pre ++ "customer id " ++ ds ++ post)
            = some (digitsToNat ds.data)
          ∧ extractCustomerId (pre ++ "id " ++ ds ++ post)
            = some (digitsToNat ds.data))
    ∧ (∀ q : String,
        (q.data.tails.all fun l => (matchIdAt l).isNone) = true →
        strContains (strLower q) "charged twice" = false →
        strContains (strLower q) "double charge" = false →
        strContains (strLower q) "refund" = false →
        strContains (strLower q) "upgrade my account" = false →
        strContains (strLower q) "upgrade assistance" = false →
        extractCustomerId q = none) := by
  constructor
  · intro pre ds post hpre hne hds hpost
    have hpre' : ∀ c ∈ pre.data,
        (charLower c == 'c') = false ∧ (charLower c == 'i') = false :=
      fun c hc => ⟨beq_eq_false_iff_ne.mpr (hpre c hc).1,
        beq_eq_false_iff_ne.mpr (hpre c hc).2⟩
    have htail := matchTail_space_digits ds.data post.data hne hds hpost
    constructor
    · unfold extractCustomerId
      have hdata : (pre ++ "customer id " ++ ds ++ post).data
          = pre.data ++ ('c' :: 'u' :: 's' :: 't' :: 'o' :: 'm' :: 'e' :: 'r'
              :: ' ' :: 'i' :: 'd' :: ' ' :: (ds.data ++ post.data)) := by
        show ((pre.data ++ "customer id ".data) ++ ds.data) ++ post.data = _
        simp [List.append_assoc]
      rw [hdata, searchId_append pre.data _ hpre']
      have hm : matchIdAt ('c' :: 'u' :: 's' :: 't' :: 'o' :: 'm' :: 'e' :: 'r'
            :: ' ' :: 'i' :: 'd' :: ' ' :: (ds.data ++ post.data))
          = some (digitsToNat ds.data) :=
        (matchIdAt_customer_anchor (ds.data ++ post.data)).trans htail
      simp [searchId, hm]
    · unfold extractCustomerId
      have hdata : (pre ++ "id " ++ ds ++ post).data
          = pre.data ++ ('i' :: 'd' :: ' ' :: (ds.data ++ post.data)) := by
        show ((pre.data ++ "id ".data) ++ ds.data) ++ post.data = _
        simp [List.append_assoc]
      rw [hdata, searchId_append pre.data _ hpre']
      have hm : matchIdAt ('i' :: 'd' :: ' ' :: (ds.data ++ post.data))
          = some (digitsToNat ds.data) :=
        (matchIdAt_id_anchor (ds.data ++ post.data)).trans htail
      simp [searchId, hm]
  · intro q htails h1 h2 h3 h4 h5
    have hs := searchId_eq_none_of_tails q.data htails
    unfold extractCustomerId
    rw [hs]
    simp [inferCustomerIdFromKeywords, h1, h2, h3, h4, h5]

/-- Witness for `extract_customer_id_spec` at concrete queries. -/
theorem extract_customer_id_spec_witness :
    extractCustomerId ("help me " ++ "customer id " ++ "42" ++ " please") = some 42
      ∧ extractCustomerId ("help me " ++ "id " ++ "42" ++ " please") = some 42
      ∧ extractCustomerId "hello there" = none := by
  have h := extract_customer_id_spec.1 "help me " "42" " please"
    (by decide) (by decide) (by decide) (by decide)
  exact ⟨h.1.trans (by decide), h.2.trans (by decide),
    extract_customer_id_spec.2 "hello there" (by decide) (by decide) (by decide)
      (by decide) (by decide) (by decide)⟩

/-! ### C2 -/

theorem truthy_invalidObj (m : String) :
    truthyOpt ((invalidObj m).getKey "_invalid") = (m != "") := rfl

/-- One invalid attempt: the loop recurses with the invalidity reason
as the next reminder, recording the prompt it sent. -/
theorem callSupportAux_invalid (instructions t : String) (ts : List String)
    (reminder lastText r : String)
    (h : validateSupportPayload (parseJson t) true = invalidObj r) (hr : r ≠ "") :
    callSupportAux instructions (t :: ts) reminder lastText
      = ((callSupportAux instructions ts r t).1,
          mkReminderPrompt instructions reminder
            :: (callSupportAux instructions ts r t).2) := by
  have hb : truthyOpt ((validateSupportPayload (parseJson t) true).getKey "_invalid")
      = true := by
    rw [h]; exact bne_iff_ne.mpr hr
  have hrem : pyFStr (((validateSupportPayload (parseJson t) true).getKey
      "_invalid").getD .null) = r := by rw [h]; rfl
  simp only [callSupportAux, hb, if_true, hrem]

/-- One valid attempt: the loop stops with the validated payload. -/
theorem callSupportAux_valid (instructions t : String) (ts : List String)
    (reminder lastText : String)
    (h : truthyOpt ((validateSupportPayload (parseJson t) true).getKey "_invalid")
      = false) :
    callSupportAux instructions (t :: ts) reminder lastText
      = (validateSupportPayload (parseJson t) true,
          [mkReminderPrompt instructions reminder]) := by
  simp [callSupportAux, h]

theorem callCustomerDataAux_invalid (instructions t : String) (ts : List String)
    (reminder lastText r : String)
    (h : validateCustomerPayload (parseJson t) = invalidObj r) (hr : r ≠ "") :
    callCustomerDataAux instructions (t :: ts) reminder lastText
      = ((callCustomerDataAux instructions ts r t).1,
          mkReminderPrompt instructions reminder
            :: (callCustomerDataAux instructions ts r t).2) := by
  have hb : truthyOpt ((validateCustomerPayload (parseJson t)).getKey "_invalid")
      = true := by
    rw [h]; exact bne_iff_ne.mpr hr
  have hrem : pyFStr (((validateCustomerPayload (parseJson t)).getKey
      "_invalid").getD .null) = r := by rw [h]; rfl
  simp only [callCustomerDataAux, hb, if_true, hrem]

theorem callSupportAux_prompts_le (instructions : String) (ts : List String) :
    ∀ reminder lastText : String,
      ((callSupportAux instructions ts reminder lastText).2).length ≤ ts.length := by
  induction ts with
  | nil => intro reminder lastText; simp [callSupportAux]
  | cons t ts ih =>
    intro reminder lastText
    cases hb : truthyOpt ((validateSupportPayload (parseJson t) true).getKey "_invalid") with
    | true =>
      simp only [callSupportAux, hb, if_true]
      simpa using Nat.succ_le_succ (ih _ _)
    | false => simp [callSupportAux, hb]

theorem callCustomerDataAux_prompts_le (instructions : String) (ts : List String) :
    ∀ reminder lastText : String,
      ((callCustomerDataAux instructions ts reminder lastText).2).length
        ≤ ts.length := by
  induction ts with
  | nil => intro reminder lastText; simp [callCustomerDataAux]
  | cons t ts ih =>
    intro reminder lastText
    cases hb : truthyOpt ((validateCustomerPayload (parseJson t)).getKey "_invalid") with
    | true =>
      simp only [callCustomerDataAux, hb, if_true]
      simpa using Nat.succ_le_succ (ih _ _)
    | false => simp [callCustomerDataAux, hb]

/-- Every performed attempt's prompt list starts with the prompt built
from the pending reminder. -/
theorem callSupportAux_prompts_head (instructions t : String) (ts : List String)
    (reminder lastText : String) :
    ∃ rest, (callSupportAux instructions (t :: ts) reminder lastText).2
      = mkReminderPrompt instructions reminder :: rest := by
  cases hb : truthyOpt ((validateSupportPayload (parseJson t) true).getKey "_invalid") with
  | true =>
    refine ⟨(callSupportAux instructions ts
      (pyFStr (((validateSupportPayload (parseJson t) true).getKey "_invalid").getD .null))
      t).2, ?_⟩
    simp only [callSupportAux, hb, if_true]
  | false => exact ⟨[], by simp [callSupportAux, hb]⟩

/-- C2: each specialist call makes at most 3 validation attempts; an
invalid attempt's reason is appended as a `ROUTER REMINDER` to the
next prompt; after three consecutive invalid responses the router
returns a synthesized fallback instead of raising — the keyword-scan
coercion of the last raw text for Support, and the fallback payload
wrapping the last raw text as `context_payload.raw_text` for Data —
while a valid first response is returned as-is after a single
attempt. -/
theorem specialist_retry_and_fallback :
    (∀ instructions t1 t2 t3 : String,
        (callSupportPrompts instructions t1 t2 t3).length ≤ 3
          ∧ (callCustomerDataPrompts instructions t1 t2 t3).length ≤ 3)
    ∧ (∀ instructions t1 t2 t3 r1 : String,
        validateSupportPayload (parseJson t1) true = invalidObj r1 → r1 ≠ "" →
        ∃ rest, callSupportPrompts instructions t1 t2 t3
          = instructions :: (instructions ++ "\n\nROUTER REMINDER: " ++ r1) :: rest)
    ∧ (∀ instructions t1 t2 t3 r1 r2 r3 : String,
        validateSupportPayload (parseJson t1) true = invalidObj r1 → r1 ≠ "" →
        validateSupportPayload (parseJson t2) true = invalidObj r2 → r2 ≠ "" →
        validateSupportPayload (parseJson t3) true = invalidObj r3 → r3 ≠ "" →
        callSupport instructions t1 t2 t3
          = coerceSupportText (if t3 == "" then "Support response unavailable." else t3))
    ∧ (∀ instructions t1 t2 t3 r1 r2 r3 : String,
        validateCustomerPayload (parseJson t1) = invalidObj r1 → r1 ≠ "" →
        validateCustomerPayload (parseJson t2) = invalidObj r2 → r2 ≠ "" →
        validateCustomerPayload (parseJson t3) = invalidObj r3 → r3 ≠ "" →
        callCustomerData instructions t1 t2 t3 = customerDataFallback t3)
    ∧ (∀ instructions t1 t2 t3 : String,
        truthyOpt ((validateSupportPayload (parseJson t1) true).getKey "_invalid")
            = false →
        callSupport instructions t1 t2 t3 = validateSupportPayload (parseJson t1) true
          ∧ callSupportPrompts instructions t1 t2 t3 = [instructions]) := by
  refine ⟨?_, ?_, ?_, ?_, ?_⟩
  · intro instructions t1 t2 t3
    exact ⟨callSupportAux_prompts_le instructions [t1, t2, t3] "" "",
      callCustomerDataAux_prompts_le instructions [t1, t2, t3] "" ""⟩
  · intro instructions t1 t2 t3 r1 h1 hr1
    unfold callSupportPrompts
    rw [callSupportAux_invalid instructions t1 [t2, t3] "" "" r1 h1 hr1]
    obtain ⟨rest, hrest⟩ := callSupportAux_prompts_head instructions t2 [t3] r1 t1
    refine ⟨rest, ?_⟩
    have hb : (r1 == "") = false := beq_eq_false_iff_ne.mpr hr1
    simp [hrest, mkReminderPrompt, hb]
  · intro instructions t1 t2 t3 r1 r2 r3 h1 hr1 h2 hr2 h3 hr3
    unfold callSupport
    rw [callSupportAux_invalid instructions t1 [t2, t3] "" "" r1 h1 hr1]
    simp only
    rw [callSupportAux_invalid instructions t2 [t3] r1 t1 r2 h2 hr2]
    simp only
    rw [callSupportAux_invalid instructions t3 [] r2 t2 r3 h3 hr3]
    rfl
  · intro instructions t1 t2 t3 r1 r2 r3 h1 hr1 h2 hr2 h3 hr3
    unfold callCustomerData
    rw [callCustomerDataAux_invalid instructions t1 [t2, t3] "" "" r1 h1 hr1]
    simp only
    rw [callCustomerDataAux_invalid instructions t2 [t3] r1 t1 r2 h2 hr2]
    simp only
    rw [callCustomerDataAux_invalid instructions t3 [] r2 t2 r3 h3 hr3]
    rfl
  · intro instructions t1 t2 t3 h1
    constructor
    · unfold callSupport
      rw [callSupportAux_valid instructions t1 [t2, t3] "" "" h1]
    · unfold callSupportPrompts
      rw [callSupportAux_valid instructions t1 [t2, t3] "" "" h1]
      rfl

/-- Witness for `specialist_retry_and_fallback` at concrete raw
texts. -/
theorem specialist_retry_and_fallback_witness :
    callSupport "Draft the reply." "not json" "still not json" "nope"
        = coerceSupportText "nope"
      ∧ callCustomerData "Fetch id 5." "not json" "still not json" "nope"
        = customerDataFallback "nope"
      ∧ callSupport "Draft the reply."
          "\x7b\"requires_context\": false, \"customer_response\": \"ok\"\x7d" "x" "y"
        = .obj [("requires_context", .bool false), ("customer_response", .str "ok")] := by
  refine ⟨?_, ?_, ?_⟩
  · exact (specialist_retry_and_fallback.2.2.1 "Draft the reply." "not json"
      "still not json" "nope" "Response was not valid JSON."
      "Response was not valid JSON." "Response was not valid JSON."
      rfl (by decide) rfl (by decide) rfl (by decide)).trans rfl
  · exact specialist_retry_and_fallback.2.2.2.1 "Fetch id 5." "not json"
      "still not json" "nope" "Customer Data agent returned non-JSON output."
      "Customer Data agent returned non-JSON output."
      "Customer Data agent returned non-JSON output."
      rfl (by decide) rfl (by decide) rfl (by decide)
  · exact ((specialist_retry_and_fallback.2.2.2.2 "Draft the reply."
      "\x7b\"requires_context\": false, \"customer_response\": \"ok\"\x7d" "x" "y"
      (by decide)).1).trans rfl

end A2ASys
